import Mathlib

/-!
Shallow embedding of the `ScholarshipHub` Solidity contract
(src/unnamed/part_002, contract starting around line 420).

Addresses are modelled as `Nat` (0 plays the role of `address(0)`),
`uint256` values as `Nat`, `block.timestamp` is passed explicitly, and
`msg.sender` / `msg.value` are explicit arguments.  Each external
function becomes a Lean function returning `Except Err ContractState`;
a Solidity `require` failure is an `Except.error`, and since a failing
call reverts, the `step` function leaves the state unchanged on error.
The contract's ether balance (`address(this).balance`) is tracked in
the field `balance`; a low-level `call{value: v}` transfer fails
exactly when the balance is below `v`.
-/

namespace ScholarshipHub

/-- `struct Student` of the contract (wallet address as `Nat`). -/
structure Student where
  studentId : Nat
  walletAddress : Nat
  applicationHash : String
  isEligible : Bool
  hasClaimedScholarship : Bool
  verificationTimestamp : Nat
deriving DecidableEq

/-- `struct Scholarship` of the contract. -/
structure Scholarship where
  id : Nat
  title : String
  description : String
  totalAmount : Nat
  remainingAmount : Nat
  claimAmount : Nat
  beneficiaryCount : Nat
  claimsProcessed : Nat
  creator : Nat
  createdAt : Nat
  active : Bool
deriving DecidableEq

/-- `struct VerificationRecord` of the contract. -/
structure VerificationRecord where
  student : Nat
  studentId : Nat
  isEligible : Bool
  reason : String
  timestamp : Nat
  verifier : Nat
deriving DecidableEq

/-- The zero value a Solidity `mapping` returns for an absent key. -/
def Student.zero : Student :=
  ⟨0, 0, "", false, false, 0⟩

/-- The zero value a Solidity `mapping` returns for an absent key. -/
def Scholarship.zero : Scholarship :=
  ⟨0, "", "", 0, 0, 0, 0, 0, 0, 0, false⟩

/-- The contract storage together with the contract's ether balance. -/
structure ContractState where
  owner : Nat
  oracleAddress : Nat
  scholarshipCounter : Nat
  totalFunds : Nat
  balance : Nat
  students : Nat → Student
  studentIdToWallet : Nat → Nat
  scholarships : Nat → Scholarship
  verificationHistory : Nat → List VerificationRecord
  claimedAmounts : Nat → Nat

/-- Pointwise update of a Solidity mapping. -/
def upd {α : Type} (f : Nat → α) (k : Nat) (v : α) : Nat → α :=
  fun x => if x = k then v else f x

/-- Error kinds, one per distinct `require` in the contract, named after
the spec's error taxonomy (§7).  Both `onlyOwner` and `onlyOracle`
failures are `Unauthorized`; the three malformed-input requires
(`Invalid student ID`, empty application hash, `Invalid student
address`) are `InvalidInput`. -/
inductive Err where
  | Unauthorized
  | InvalidInput
  | DuplicateIdentity
  | DuplicateHandle
  | IdentityMismatch
  | NoDeposit
  | InvalidCapacity
  | EmptyTitle
  | ShareTooSmall
  | PoolNotFound
  | NotEligible
  | AlreadyClaimed
  | CapacityExhausted
  | InsufficientFunds
  | InsufficientBalance
  | TransferFailed
deriving DecidableEq

/-- The state right after the constructor ran with deployer `d`:
`owner = msg.sender`, `oracleAddress = msg.sender`, counters zero,
all mappings empty. -/
def initState (d : Nat) : ContractState where
  owner := d
  oracleAddress := d
  scholarshipCounter := 0
  totalFunds := 0
  balance := 0
  students := fun _ => Student.zero
  studentIdToWallet := fun _ => 0
  scholarships := fun _ => Scholarship.zero
  verificationHistory := fun _ => []
  claimedAmounts := fun _ => 0

/-- Modifier `scholarshipExists`: `_id < scholarshipCounter &&
scholarships[_id].active`. -/
def poolExistsB (s : ContractState) (pid : Nat) : Bool :=
  decide (pid < s.scholarshipCounter) && (s.scholarships pid).active

/-- `registerStudent(_studentId, _applicationHash)` called by `sender`. -/
def registerStudent (s : ContractState) (sender id : Nat) (hash : String) :
    Except Err ContractState :=
  if id = 0 then .error .InvalidInput
  else if s.studentIdToWallet id ≠ 0 then .error .DuplicateIdentity
  else if (s.students sender).studentId ≠ 0 then .error .DuplicateHandle
  else if hash.length = 0 then .error .InvalidInput
  else .ok { s with
    students := upd s.students sender ⟨id, sender, hash, false, false, 0⟩
    studentIdToWallet := upd s.studentIdToWallet id sender }

/-- `verifyEligibility(_studentAddress, _studentId, _isEligible, _reason)`
called by `sender` at time `time`; gated by `onlyOracle`. -/
def verifyEligibility (s : ContractState) (sender addr id : Nat)
    (elig : Bool) (reason : String) (time : Nat) :
    Except Err ContractState :=
  if sender ≠ s.oracleAddress then .error .Unauthorized
  else if addr = 0 then .error .InvalidInput
  else if (s.students addr).studentId ≠ id then .error .IdentityMismatch
  else .ok { s with
    students := upd s.students addr
      { s.students addr with isEligible := elig, verificationTimestamp := time }
    verificationHistory := upd s.verificationHistory addr
      (s.verificationHistory addr ++ [⟨addr, id, elig, reason, time, sender⟩]) }

/-- `createScholarship(_title, _beneficiaryCount, _description)` called
by `sender` with `msg.value = value` at time `time`; gated by
`onlyOwner`.  The requires appear in the contract's order: deposit,
beneficiary count, title, computed share. -/
def createScholarship (s : ContractState) (sender value : Nat)
    (title : String) (count : Nat) (descr : String) (time : Nat) :
    Except Err ContractState :=
  if sender ≠ s.owner then .error .Unauthorized
  else if value = 0 then .error .NoDeposit
  else if count = 0 then .error .InvalidCapacity
  else if title.length = 0 then .error .EmptyTitle
  else if value / count = 0 then .error .ShareTooSmall
  else .ok { s with
    scholarships := upd s.scholarships s.scholarshipCounter
      ⟨s.scholarshipCounter, title, descr, value, value, value / count,
        count, 0, sender, time, true⟩
    totalFunds := s.totalFunds + value
    balance := s.balance + value
    scholarshipCounter := s.scholarshipCounter + 1 }

/-- `claimScholarship(_scholarshipId)` called by `sender`.  The checks
appear in the contract's order: modifier `scholarshipExists`, modifier
`studentIsEligible`, then the three body requires; the final low-level
transfer fails (and the whole call reverts) when the contract balance
is below the claim amount. -/
def claimScholarship (s : ContractState) (sender pid : Nat) :
    Except Err ContractState :=
  if poolExistsB s pid = false then .error .PoolNotFound
  else if (s.students sender).isEligible = false then .error .NotEligible
  else if (s.students sender).hasClaimedScholarship = true then .error .AlreadyClaimed
  else if (s.scholarships pid).beneficiaryCount ≤ (s.scholarships pid).claimsProcessed then
    .error .CapacityExhausted
  else if (s.scholarships pid).remainingAmount < (s.scholarships pid).claimAmount then
    .error .InsufficientFunds
  else if s.balance < (s.scholarships pid).claimAmount then .error .TransferFailed
  else .ok { s with
    students := upd s.students sender
      { s.students sender with hasClaimedScholarship := true }
    scholarships := upd s.scholarships pid
      { s.scholarships pid with
        claimsProcessed := (s.scholarships pid).claimsProcessed + 1
        remainingAmount :=
          (s.scholarships pid).remainingAmount - (s.scholarships pid).claimAmount }
    claimedAmounts := upd s.claimedAmounts sender
      (s.claimedAmounts sender + (s.scholarships pid).claimAmount)
    balance := s.balance - (s.scholarships pid).claimAmount
    totalFunds := s.totalFunds - (s.scholarships pid).claimAmount }

/-- `withdrawUnclaimedFunds(_amount)` called by `sender`; gated by
`onlyOwner`; checks `address(this).balance >= _amount` and transfers to
the owner.  It touches no scholarship record. -/
def withdrawUnclaimedFunds (s : ContractState) (sender amount : Nat) :
    Except Err ContractState :=
  if sender ≠ s.owner then .error .Unauthorized
  else if s.balance < amount then .error .InsufficientBalance
  else .ok { s with balance := s.balance - amount }

/-- `setOracleAddress(_newOracle)`; gated by `onlyOwner`. -/
def setOracleAddress (s : ContractState) (sender newOracle : Nat) :
    Except Err ContractState :=
  if sender ≠ s.owner then .error .Unauthorized
  else if newOracle = 0 then .error .InvalidInput
  else .ok { s with oracleAddress := newOracle }

/-- The `receive()` function: accepts a plain deposit. -/
def receiveDeposit (s : ContractState) (value : Nat) :
    Except Err ContractState :=
  .ok { s with totalFunds := s.totalFunds + value, balance := s.balance + value }

/-- One external call to the contract, with its caller and arguments. -/
inductive Op where
  | register (sender id : Nat) (hash : String)
  | verify (sender addr id : Nat) (elig : Bool) (reason : String) (time : Nat)
  | create (sender value : Nat) (title : String) (count : Nat) (descr : String) (time : Nat)
  | claim (sender pid : Nat)
  | withdraw (sender amount : Nat)
  | setOracle (sender newOracle : Nat)
  | deposit (sender value : Nat)

/-- The `msg.sender` of a call. -/
def Op.sender : Op → Nat
  | .register s _ _ => s
  | .verify s _ _ _ _ _ => s
  | .create s _ _ _ _ _ => s
  | .claim s _ => s
  | .withdraw s _ => s
  | .setOracle s _ => s
  | .deposit s _ => s

/-- Dispatch one call to the matching contract function. -/
def applyOp (s : ContractState) : Op → Except Err ContractState
  | .register sender id hash => registerStudent s sender id hash
  | .verify sender addr id elig reason time =>
      verifyEligibility s sender addr id elig reason time
  | .create sender value title count descr time =>
      createScholarship s sender value title count descr time
  | .claim sender pid => claimScholarship s sender pid
  | .withdraw sender amount => withdrawUnclaimedFunds s sender amount
  | .setOracle sender newOracle => setOracleAddress s sender newOracle
  | .deposit _ value => receiveDeposit s value

/-- Transaction semantics: a failing call reverts, leaving the state
unchanged. -/
def step (s : ContractState) (op : Op) : ContractState :=
  match applyOp s op with
  | .ok s1 => s1
  | .error _ => s

/-- Run a list of calls from a state. -/
def run (s : ContractState) (ops : List Op) : ContractState :=
  ops.foldl step s

/-- States reachable from deployment by any sequence of external calls.
`msg.sender` is never `address(0)` on chain, hence the side conditions. -/
inductive Reachable : ContractState → Prop where
  | init (d : Nat) (hd : d ≠ 0) : Reachable (initState d)
  | next (s : ContractState) (op : Op) (hs : op.sender ≠ 0) :
      Reachable s → Reachable (step s op)

/-- Accounting well-formedness of one pool record: the conservation
identity, the capacity bound, and the creation-time share bound
`capacity * share ≤ total` (shares are computed once, by truncated
division, at creation). -/
def poolOk (p : Scholarship) : Prop :=
  p.remainingAmount + p.claimsProcessed * p.claimAmount = p.totalAmount ∧
  p.claimsProcessed ≤ p.beneficiaryCount ∧
  p.beneficiaryCount * p.claimAmount ≤ p.totalAmount

/-- The state invariant: every pool slot (created or still at its zero
value) satisfies `poolOk`, and no student id maps to the zero address
without having been written (id 0 is rejected at registration). -/
def Inv (s : ContractState) : Prop :=
  (∀ pid, poolOk (s.scholarships pid)) ∧ s.studentIdToWallet 0 = 0

/-- The ordered precondition list of `claim` as the CODE implements it,
returning the first failing precondition's error kind (or `none` when
all five hold).  Checks 1, 2, 4 and 5 coincide with the spec's §4.4
list; check 3 is where the code diverges from the spec: it consults the
account's single GLOBAL `hasClaimedScholarship` flag, not the spec's
per-pool `has_claimed[pool_id]` (see the C3 and C4 counterexamples for
the divergence).  The theorem for C4 compares this list with the
monolithic `claimScholarship`. -/
def claimPreconditionOrder (s : ContractState) (a pid : Nat) : Option Err :=
  if ¬ (pid < s.scholarshipCounter ∧ (s.scholarships pid).active = true) then
    some .PoolNotFound
  else if (s.students a).isEligible = false then some .NotEligible
  else if (s.students a).hasClaimedScholarship = true then some .AlreadyClaimed
  else if ¬ ((s.scholarships pid).claimsProcessed < (s.scholarships pid).beneficiaryCount) then
    some .CapacityExhausted
  else if ¬ ((s.scholarships pid).remainingAmount ≥ (s.scholarships pid).claimAmount) then
    some .InsufficientFunds
  else none

/-! Concrete demonstration states, used by witnesses and
counterexamples.  The deployer (owner and initial oracle) is address 1;
student wallets are addresses 2 and 3. -/

/-- Register wallet 2 under student id 7, verify it eligible, and fund
pool 0 with 10 units for 2 beneficiaries (share 5). -/
def opsBase : List Op :=
  [.register 2 7 "h", .verify 1 2 7 true "r" 1, .create 1 10 "A" 2 "d" 1]

/-- The state after `opsBase`. -/
def stBase : ContractState := run (initState 1) opsBase

/-- `opsBase`, then a second pool 1 (share 5), then wallet 2 claims
pool 0. -/
def opsTwoPools : List Op :=
  opsBase ++ [.create 1 10 "B" 2 "d" 1, .claim 2 0]

/-- The state after `opsTwoPools`. -/
def stTwoPools : ContractState := run (initState 1) opsTwoPools

/-- The state just before the claim in `opsTwoPools`: both pools exist,
wallet 2 is eligible and has claimed nothing. -/
def stTwoPoolsPre : ContractState :=
  run (initState 1) (opsBase ++ [.create 1 10 "B" 2 "d" 1])

/-- A double-payout trace: the oracle verifies the unregistered wallet 2
with student id 0 (which the contract accepts), wallet 2 claims pool 0,
then registers (resetting its flags), is re-verified, and claims pool 0
a second time. -/
def opsDouble : List Op :=
  [.verify 1 2 0 true "r" 1, .create 1 10 "T" 2 "d" 1, .claim 2 0,
   .register 2 7 "h", .verify 1 2 7 true "r" 2, .claim 2 0]

/-- The state after `opsDouble`. -/
def stDouble : ContractState := run (initState 1) opsDouble

/-- A capacity-1 pool that has been fully claimed by wallet 2; wallet 3
is never registered nor verified. -/
def opsExhausted : List Op :=
  [.register 2 7 "h", .verify 1 2 7 true "r" 1, .create 1 10 "T" 1 "d" 1,
   .claim 2 0]

/-- The state after `opsExhausted`. -/
def stExhausted : ContractState := run (initState 1) opsExhausted

/-- Wallet 2 registered under student id 42. -/
def stReg : ContractState := run (initState 1) [.register 2 42 "h"]

/-- The oracle verifies the unregistered wallet 2 with student id 0,
then wallet 2 registers under student id 5. -/
def opsHist : List Op :=
  [.verify 1 2 0 true "r" 1, .register 2 5 "h"]

/-- The state after `opsHist`. -/
def stHist : ContractState := run (initState 1) opsHist

/-! Basic stepping lemmas and the invariant proof. -/

theorem step_of_ok {s s1 : ContractState} {op : Op}
    (h : applyOp s op = .ok s1) : step s op = s1 := by
  unfold step
  rw [h]

theorem step_of_error {s : ContractState} {op : Op} {e : Err}
    (h : applyOp s op = .error e) : step s op = s := by
  unfold step
  rw [h]

@[simp] theorem except_isOk_ok {α β : Type} (b : β) :
    (Except.ok b : Except α β).isOk = true := rfl

@[simp] theorem except_isOk_error {α β : Type} (e : α) :
    (Except.error e : Except α β).isOk = false := rfl

theorem inv_initState (d : Nat) : Inv (initState d) := by
  constructor
  · intro pid
    exact ⟨rfl, Nat.le_refl 0, Nat.le_refl 0⟩
  · rfl

theorem inv_applyOp {s s1 : ContractState} {op : Op}
    (h : Inv s) (hok : applyOp s op = .ok s1) : Inv s1 := by
  obtain ⟨hp, hz⟩ := h
  cases op with
  | register sender id hash =>
      unfold applyOp registerStudent at hok
      by_cases h1 : id = 0
      · simp [h1] at hok
      · by_cases h2 : s.studentIdToWallet id = 0
        · by_cases h3 : (s.students sender).studentId = 0
          · by_cases h4 : hash.length = 0
            · simp [h1, h2, h3, h4] at hok
            · simp [h1, h2, h3, h4] at hok
              subst hok
              refine ⟨fun pid => hp pid, ?_⟩
              unfold upd
              simp only
              rw [if_neg (fun hh => h1 hh.symm)]
              exact hz
          · simp [h1, h2, h3] at hok
        · simp [h1, h2] at hok
  | verify sender addr id elig reason time =>
      unfold applyOp verifyEligibility at hok
      by_cases h1 : sender = s.oracleAddress
      · by_cases h2 : addr = 0
        · simp [h1, h2] at hok
        · by_cases h3 : (s.students addr).studentId = id
          · simp [h1, h2, h3] at hok
            subst hok
            exact ⟨fun pid => hp pid, hz⟩
          · simp [h1, h2, h3] at hok
      · simp [h1] at hok
  | create sender value title count descr time =>
      unfold applyOp createScholarship at hok
      by_cases h1 : sender = s.owner
      · by_cases h2 : value = 0
        · simp [h1, h2] at hok
        · by_cases h3 : count = 0
          · simp [h1, h2, h3] at hok
          · by_cases h4 : title.length = 0
            · simp [h1, h2, h3, h4] at hok
            · by_cases h5 : value / count = 0
              · simp [h1, h2, h3, h4, h5] at hok
              · simp [h1, h2, h3, h4, h5] at hok
                subst hok
                refine ⟨fun pid => ?_, hz⟩
                unfold upd
                simp only
                by_cases hpid : pid = s.scholarshipCounter
                · rw [if_pos hpid]
                  refine ⟨by simp, Nat.zero_le _, ?_⟩
                  rw [Nat.mul_comm]
                  exact Nat.div_mul_le_self value count
                · rw [if_neg hpid]
                  exact hp pid
      · simp [h1] at hok
  | claim sender pid =>
      unfold applyOp claimScholarship at hok
      by_cases h1 : poolExistsB s pid = false
      · simp [h1] at hok
      · by_cases h2 : (s.students sender).isEligible = false
        · simp [h1, h2] at hok
        · by_cases h3 : (s.students sender).hasClaimedScholarship = true
          · simp [h1, h2, h3] at hok
          · by_cases h4 :
              (s.scholarships pid).beneficiaryCount ≤ (s.scholarships pid).claimsProcessed
            · simp [h1, h2, h3, h4] at hok
            · by_cases h5 :
                (s.scholarships pid).remainingAmount < (s.scholarships pid).claimAmount
              · simp [h1, h2, h3, h4, h5] at hok
              · by_cases h6 : s.balance < (s.scholarships pid).claimAmount
                · simp [h1, h2, h3, h4, h5, h6] at hok
                · simp [h1, h2, h3, h4, h5, h6] at hok
                  subst hok
                  refine ⟨fun pid1 => ?_, hz⟩
                  unfold upd
                  simp only
                  by_cases hpid : pid1 = pid
                  · rw [if_pos hpid]
                    obtain ⟨e1, e2, e3⟩ := hp pid
                    refine ⟨?_, ?_, e3⟩
                    · simp only [Nat.succ_mul]
                      push_neg at h5
                      generalize (s.scholarships pid).claimsProcessed *
                        (s.scholarships pid).claimAmount = x at e1
                      omega
                    · push_neg at h4
                      exact h4
                  · rw [if_neg hpid]
                    exact hp pid1
  | withdraw sender amount =>
      unfold applyOp withdrawUnclaimedFunds at hok
      by_cases h1 : sender = s.owner
      · by_cases h2 : s.balance < amount
        · simp [h1, h2] at hok
        · simp [h1, h2] at hok
          subst hok
          exact ⟨fun pid => hp pid, hz⟩
      · simp [h1] at hok
  | setOracle sender newOracle =>
      unfold applyOp setOracleAddress at hok
      by_cases h1 : sender = s.owner
      · by_cases h2 : newOracle = 0
        · simp [h1, h2] at hok
        · simp [h1, h2] at hok
          subst hok
          exact ⟨fun pid => hp pid, hz⟩
      · simp [h1] at hok
  | deposit sender value =>
      unfold applyOp receiveDeposit at hok
      cases hok
      exact ⟨fun pid => hp pid, hz⟩

theorem inv_step (s : ContractState) (op : Op) (h : Inv s) :
    Inv (step s op) := by
  cases hres : applyOp s op with
  | ok s1 => rw [step_of_ok hres]; exact inv_applyOp h hres
  | error e => rw [step_of_error hres]; exact h

theorem reachable_inv {s : ContractState} (h : Reachable s) : Inv s := by
  induction h with
  | init d hd => exact inv_initState d
  | next s1 op hs hr ih => exact inv_step s1 op ih

theorem reachable_run (s : ContractState) (hs : Reachable s) (ops : List Op)
    (hops : ∀ op ∈ ops, op.sender ≠ 0) : Reachable (run s ops) := by
  induction ops generalizing s with
  | nil => exact hs
  | cons op rest ih =>
      have h1 : Reachable (step s op) :=
        Reachable.next s op (hops op (List.mem_cons_self op rest)) hs
      exact ih (step s op) h1 (fun o ho => hops o (List.mem_cons_of_mem op ho))

theorem reachable_stBase : Reachable stBase :=
  reachable_run (initState 1) (Reachable.init 1 (by decide)) opsBase (by decide)

theorem reachable_stTwoPools : Reachable stTwoPools :=
  reachable_run (initState 1) (Reachable.init 1 (by decide)) opsTwoPools (by decide)

theorem reachable_stReg : Reachable stReg :=
  reachable_run (initState 1) (Reachable.init 1 (by decide))
    [.register 2 42 "h"] (by decide)

theorem claim_ok_flag {s s1 : ContractState} {a pid : Nat}
    (h : applyOp s (Op.claim a pid) = Except.ok s1) :
    (s1.students a).hasClaimedScholarship = true := by
  unfold applyOp claimScholarship at h
  by_cases h1 : poolExistsB s pid = false
  · simp [h1] at h
  · by_cases h2 : (s.students a).isEligible = false
    · simp [h1, h2] at h
    · by_cases h3 : (s.students a).hasClaimedScholarship = true
      · simp [h1, h2, h3] at h
      · by_cases h4 :
          (s.scholarships pid).beneficiaryCount ≤ (s.scholarships pid).claimsProcessed
        · simp [h1, h2, h3, h4] at h
        · by_cases h5 :
            (s.scholarships pid).remainingAmount < (s.scholarships pid).claimAmount
          · simp [h1, h2, h3, h4, h5] at h
          · by_cases h6 : s.balance < (s.scholarships pid).claimAmount
            · simp [h1, h2, h3, h4, h5, h6] at h
            · simp [h1, h2, h3, h4, h5, h6] at h
              subst h
              simp [upd]

/-! The claims. -/

/-- C1: Conservation invariant.  In every reachable state, for every
pool id, `remaining_amount + claims_processed * share_amount =
total_amount` and `claims_processed ≤ capacity`.  Residual withdrawals
(`withdrawUnclaimedFunds`) carry no pool reference and modify no pool
record, so the sum of residual withdrawals attributed to any single
pool is 0 and the claimed identity holds in the form above. -/
theorem conservation_invariant (s : ContractState) (h : Reachable s) (pid : Nat) :
    (s.scholarships pid).remainingAmount +
      (s.scholarships pid).claimsProcessed * (s.scholarships pid).claimAmount =
      (s.scholarships pid).totalAmount ∧
    (s.scholarships pid).claimsProcessed ≤ (s.scholarships pid).beneficiaryCount := by
  obtain ⟨hp, -⟩ := reachable_inv h
  exact ⟨(hp pid).1, (hp pid).2.1⟩

/-- C1 witness: the conservation identity evaluated at pool 0 of the
concrete reachable state `stTwoPools` (one claim processed). -/
theorem conservation_invariant_witness :
    (stTwoPools.scholarships 0).remainingAmount +
      (stTwoPools.scholarships 0).claimsProcessed *
        (stTwoPools.scholarships 0).claimAmount =
      (stTwoPools.scholarships 0).totalAmount ∧
    (stTwoPools.scholarships 0).claimsProcessed ≤
      (stTwoPools.scholarships 0).beneficiaryCount :=
  conservation_invariant stTwoPools reachable_stTwoPools 0

/-- C2: exactly-once violation.  In the trace `opsDouble` the oracle
verifies the still-unregistered wallet 2 with student id 0 (accepted,
because the zero student record's id matches), wallet 2 claims pool 0
and receives the share of 5, then registers (which overwrites its
record, resetting `hasClaimedScholarship`), is re-verified, and claims
pool 0 a second time successfully: `claimedAmounts` reaches 10 = two
shares of the same pool, disbursed to the same (account, pool) pair,
and `claims_processed` reaches 2.  This contradicts the claim that the
second claim always fails with `AlreadyClaimed` and that no
(account, pool) pair ever receives two disbursements. -/
theorem double_claim_same_pool :
    (stDouble.scholarships 0).claimAmount = 5 ∧
    stDouble.claimedAmounts 2 = 10 ∧
    (stDouble.scholarships 0).claimsProcessed = 2 :=
  ⟨rfl, rfl, rfl⟩

/-- C3 counterexample: in `stTwoPools` wallet 2 has successfully
claimed pool 0 and nothing else; pool 1 exists, is active, has free
capacity and funds, wallet 2 is eligible and never claimed pool 1 —
yet the claim on pool 1 fails with `AlreadyClaimed`, because the
claimed flag is a single per-student boolean, not per pool. -/
theorem claim_other_pool_cex :
    poolExistsB stTwoPools 1 = true ∧
    (stTwoPools.students 2).isEligible = true ∧
    (stTwoPools.scholarships 1).claimsProcessed = 0 ∧
    (stTwoPools.scholarships 1).remainingAmount = 10 ∧
    (stTwoPools.scholarships 1).claimAmount = 5 ∧
    applyOp stTwoPools (Op.claim 2 1) = Except.error Err.AlreadyClaimed :=
  ⟨rfl, rfl, rfl, rfl, rfl, rfl⟩

/-- C3 amended: the claimed flag is global per account, not per
(account, pool): after any successful claim by account `a` (on any
pool `pA`), a claim by `a` on any pool `pB` that exists and is active,
with `a` still eligible, fails with `AlreadyClaimed` — even when
`pB ≠ pA` and `a` never claimed `pB`. -/
theorem claim_flag_is_global (s s1 : ContractState) (a pA pB : Nat)
    (h1 : applyOp s (Op.claim a pA) = Except.ok s1)
    (hB : poolExistsB s1 pB = true)
    (hel : (s1.students a).isEligible = true) :
    applyOp s1 (Op.claim a pB) = Except.error Err.AlreadyClaimed := by
  have hflag := claim_ok_flag h1
  unfold applyOp claimScholarship
  simp [hB, hel, hflag]

/-- C3 witness for the amended statement, at the concrete claim of
pool 0 followed by an attempt on pool 1. -/
theorem claim_flag_is_global_witness :
    applyOp stTwoPools (Op.claim 2 1) = Except.error Err.AlreadyClaimed :=
  claim_flag_is_global stTwoPoolsPre stTwoPools 2 0 1 rfl rfl rfl

/-- C4 counterexample: the claim reads precondition 3 per-pool
("account has not claimed THIS pool").  In `stTwoPools`, for the call
`claim(2, 1)`, all five preconditions of that reading hold — pool 1
exists and is active, account 2 is eligible, nobody (in particular
account 2) has ever claimed pool 1 (`claims_processed = 0`), capacity
is free and funds suffice — so under the claim no precondition fails,
yet the code reports `AlreadyClaimed`: its third check is the account's
global claimed flag, set by the earlier claim of pool 0. -/
theorem claim_order_cex :
    poolExistsB stTwoPools 1 = true ∧
    (stTwoPools.students 2).isEligible = true ∧
    (stTwoPools.scholarships 1).claimsProcessed = 0 ∧
    (stTwoPools.scholarships 1).claimsProcessed <
      (stTwoPools.scholarships 1).beneficiaryCount ∧
    (stTwoPools.scholarships 1).claimAmount ≤
      (stTwoPools.scholarships 1).remainingAmount ∧
    applyOp stTwoPools (Op.claim 2 1) = Except.error Err.AlreadyClaimed :=
  ⟨rfl, rfl, rfl, by decide, by decide, rfl⟩

/-- C4 amended: `claimScholarship` evaluates its preconditions in
exactly the listed order — (1) pool exists and is active, (2) account
eligible, (3) account has not claimed ANY pool (the global
`hasClaimedScholarship` flag, the code's divergence from the spec's
per-pool flag), (4) capacity free, (5) funds sufficient — and reports
the first failing one (`claimPreconditionOrder` is that ordered list);
when all five hold the call either succeeds or fails only in the
external transfer (`TransferFailed`), which is not a precondition.  In
particular an ineligible account on an existing active pool whose
capacity is exhausted fails with `NotEligible`, not
`CapacityExhausted`. -/
theorem claim_error_order (s : ContractState) (a pid : Nat) :
    (∀ e : Err, claimPreconditionOrder s a pid = some e →
      applyOp s (Op.claim a pid) = Except.error e) ∧
    (claimPreconditionOrder s a pid = none →
      (applyOp s (Op.claim a pid)).isOk = true ∨
      applyOp s (Op.claim a pid) = Except.error Err.TransferFailed) := by
  constructor
  · intro e he
    unfold claimPreconditionOrder at he
    unfold applyOp claimScholarship
    split_ifs at he ⊢ <;>
      simp_all [poolExistsB, Nat.not_lt, ge_iff_le, Nat.not_le]
  · intro he
    unfold claimPreconditionOrder at he
    unfold applyOp claimScholarship
    by_cases h1 : poolExistsB s pid = false
    · exfalso
      have hc : ¬ (pid < s.scholarshipCounter ∧ (s.scholarships pid).active = true) := by
        intro hc
        have ht : poolExistsB s pid = true := by simp [poolExistsB, hc.1, hc.2]
        rw [h1] at ht
        cases ht
      simp [hc] at he
    · have hc : pid < s.scholarshipCounter ∧ (s.scholarships pid).active = true := by
        have ht : poolExistsB s pid = true := by
          cases hb : poolExistsB s pid
          · exact absurd hb h1
          · rfl
        simpa [poolExistsB] using ht
      by_cases h2 : (s.students a).isEligible = false
      · simp [hc, h2] at he
      · by_cases h3 : (s.students a).hasClaimedScholarship = true
        · simp [hc, h2, h3] at he
        · by_cases h4 :
            (s.scholarships pid).beneficiaryCount ≤ (s.scholarships pid).claimsProcessed
          · simp [hc, h2, h3, Nat.not_lt.mpr h4] at he
          · have h4x : (s.scholarships pid).claimsProcessed <
                (s.scholarships pid).beneficiaryCount := Nat.lt_of_not_le h4
            by_cases h5 :
              (s.scholarships pid).remainingAmount < (s.scholarships pid).claimAmount
            · simp [hc, h2, h3, h4x, ge_iff_le, Nat.not_le, h5] at he
            · by_cases h6 : s.balance < (s.scholarships pid).claimAmount
              · right
                simp [h1, h2, h3, h4, h5, h6]
              · left
                simp [h1, h2, h3, h4, h5, h6]

/-- C4 witness for the amended statement, at the claim's own example:
wallet 3 is not eligible and pool 0 of `stExhausted` exists, is active
and has its capacity exhausted (1 of 1 claims processed); the call
fails with `NotEligible`, not `CapacityExhausted`. -/
theorem claim_error_order_witness :
    (stExhausted.scholarships 0).beneficiaryCount = 1 ∧
    (stExhausted.scholarships 0).claimsProcessed = 1 ∧
    (stExhausted.students 3).isEligible = false ∧
    applyOp stExhausted (Op.claim 3 0) = Except.error Err.NotEligible :=
  ⟨rfl, rfl, rfl, (claim_error_order stExhausted 3 0).1 Err.NotEligible rfl⟩

/-- C5: in every reachable state, when `claim`'s preconditions 1–4 hold
(pool exists and is active, account eligible, account has not claimed,
`claims_processed < capacity`), the pool also has
`remaining_amount ≥ share_amount`, so the `InsufficientFunds` branch of
`claimScholarship` cannot be taken. -/
theorem insufficient_funds_unreachable (s : ContractState) (h : Reachable s)
    (a pid : Nat)
    (h1 : poolExistsB s pid = true)
    (h2 : (s.students a).isEligible = true)
    (h3 : (s.students a).hasClaimedScholarship = false)
    (h4 : (s.scholarships pid).claimsProcessed < (s.scholarships pid).beneficiaryCount) :
    (s.scholarships pid).claimAmount ≤ (s.scholarships pid).remainingAmount := by
  obtain ⟨hp, -⟩ := reachable_inv h
  obtain ⟨e1, e2, e3⟩ := hp pid
  have h5 : ((s.scholarships pid).claimsProcessed + 1) * (s.scholarships pid).claimAmount ≤
      (s.scholarships pid).beneficiaryCount * (s.scholarships pid).claimAmount :=
    Nat.mul_le_mul_right _ h4
  rw [Nat.succ_mul] at h5
  generalize hx : (s.scholarships pid).claimsProcessed * (s.scholarships pid).claimAmount = x
    at e1 h5
  generalize hy : (s.scholarships pid).beneficiaryCount * (s.scholarships pid).claimAmount = y
    at e3 h5
  omega

/-- C5 witness: in the concrete reachable state `stBase`, wallet 2
satisfies preconditions 1–4 against pool 0 and the share (5) is indeed
at most the remaining amount (10). -/
theorem insufficient_funds_unreachable_witness :
    (stBase.scholarships 0).claimAmount ≤ (stBase.scholarships 0).remainingAmount :=
  insufficient_funds_unreachable stBase reachable_stBase 2 0 rfl rfl rfl (by decide)

/-- C6 counterexample: `capacity = 5 > 0` and
`floor(funding / capacity) = 5 / 5 = 1 ≥ 1`, yet a `createScholarship`
call with an empty title fails (`Title cannot be empty`) and creates
nothing — the claim's success condition omits the non-empty-title
precondition. -/
theorem create_empty_title_cex :
    (0 : Nat) < 5 ∧ 1 ≤ (5 : Nat) / 5 ∧
    applyOp (initState 1) (Op.create 1 5 "" 5 "d" 0) = Except.error Err.EmptyTitle ∧
    step (initState 1) (Op.create 1 5 "" 5 "d" 0) = initState 1 :=
  ⟨by decide, by decide, rfl, rfl⟩

/-- C6 amended: for every capacity and funding amount, and every
NON-EMPTY title, a `createScholarship` call by the owner: if
`capacity > 0` and `floor(funding / capacity) ≥ 1` it creates a pool
with `share_amount = floor(funding / capacity)`,
`remaining_amount = funding`, `claims_processed = 0`, `active = true`
and bumps the pool counter; if the integer share would be 0 the call
fails and leaves the state (hence funds held) unchanged; if
`capacity = 0` the call fails and leaves the state unchanged.  (An
empty title also makes the call fail, per the counterexample.) -/
theorem createScholarship_spec (s : ContractState) (sender value count t : Nat)
    (title descr : String)
    (hown : sender = s.owner) (htitle : title.length ≠ 0) :
    (0 < count → 1 ≤ value / count →
      (applyOp s (Op.create sender value title count descr t)).isOk = true ∧
      ((step s (Op.create sender value title count descr t)).scholarships
          s.scholarshipCounter).claimAmount = value / count ∧
      ((step s (Op.create sender value title count descr t)).scholarships
          s.scholarshipCounter).remainingAmount = value ∧
      ((step s (Op.create sender value title count descr t)).scholarships
          s.scholarshipCounter).claimsProcessed = 0 ∧
      ((step s (Op.create sender value title count descr t)).scholarships
          s.scholarshipCounter).active = true ∧
      ((step s (Op.create sender value title count descr t)).scholarships
          s.scholarshipCounter).totalAmount = value ∧
      (step s (Op.create sender value title count descr t)).scholarshipCounter =
        s.scholarshipCounter + 1) ∧
    (value / count = 0 →
      (applyOp s (Op.create sender value title count descr t)).isOk = false ∧
      step s (Op.create sender value title count descr t) = s) ∧
    (count = 0 →
      (applyOp s (Op.create sender value title count descr t)).isOk = false ∧
      step s (Op.create sender value title count descr t) = s) := by
  refine ⟨?_, ?_, ?_⟩
  · intro hcount hshare
    have hv : value ≠ 0 := by
      intro hv0
      rw [hv0, Nat.zero_div] at hshare
      exact absurd hshare (by decide)
    have hc : count ≠ 0 := Nat.pos_iff_ne_zero.mp hcount
    have hs0 : value / count ≠ 0 := by omega
    unfold step applyOp createScholarship
    simp [hown, hv, hc, htitle, hs0, upd]
  · intro hshare
    by_cases hv : value = 0
    · unfold step applyOp createScholarship
      simp [hown, hv]
    · by_cases hc : count = 0
      · unfold step applyOp createScholarship
        simp [hown, hv, hc]
      · unfold step applyOp createScholarship
        simp [hown, hv, hc, htitle, hshare]
  · intro hc
    by_cases hv : value = 0
    · unfold step applyOp createScholarship
      simp [hown, hv]
    · unfold step applyOp createScholarship
      simp [hown, hv, hc]

/-- C6 witness for the amended statement: the owner funds a pool with
10 units for 3 beneficiaries; the call succeeds with share
`10 / 3 = 3`, remaining 10, zero claims, active, and the counter
becomes 1. -/
theorem createScholarship_spec_witness :
    (applyOp (initState 1) (Op.create 1 10 "T" 3 "d" 0)).isOk = true ∧
    ((step (initState 1) (Op.create 1 10 "T" 3 "d" 0)).scholarships
        (initState 1).scholarshipCounter).claimAmount = 10 / 3 ∧
    ((step (initState 1) (Op.create 1 10 "T" 3 "d" 0)).scholarships
        (initState 1).scholarshipCounter).remainingAmount = 10 ∧
    ((step (initState 1) (Op.create 1 10 "T" 3 "d" 0)).scholarships
        (initState 1).scholarshipCounter).claimsProcessed = 0 ∧
    ((step (initState 1) (Op.create 1 10 "T" 3 "d" 0)).scholarships
        (initState 1).scholarshipCounter).active = true ∧
    ((step (initState 1) (Op.create 1 10 "T" 3 "d" 0)).scholarships
        (initState 1).scholarshipCounter).totalAmount = 10 ∧
    (step (initState 1) (Op.create 1 10 "T" 3 "d" 0)).scholarshipCounter =
      (initState 1).scholarshipCounter + 1 :=
  (createScholarship_spec (initState 1) 1 10 3 0 "T" "d" rfl (by decide)).1
    (by decide) (by decide)

/-- C7 counterexample: wallet 2 is registered under student id 42
(`stReg`); the same wallet registers again supplying the same id 42.
The handle is already bound, but the call fails with
`DuplicateIdentity`, not `DuplicateHandle`, because the student-id
check precedes the wallet check. -/
theorem register_same_handle_cex :
    (stReg.students 2).studentId = 42 ∧
    applyOp stReg (Op.register 2 42 "g") = Except.error Err.DuplicateIdentity :=
  ⟨rfl, rfl⟩

/-- C7 amended: registering an already-registered `external_id` always
fails with `DuplicateIdentity` (whatever the handle); registering from
an already-bound handle fails with `DuplicateHandle` only when the
supplied `external_id` is nonzero and not already registered (an
already-registered id gives `DuplicateIdentity` instead, the id check
coming first); in both cases the state — in particular the set of
accounts — is unchanged. -/
theorem register_duplicate_order (s : ContractState) (h : Reachable s)
    (a id : Nat) (hash : String) :
    (s.studentIdToWallet id ≠ 0 →
      applyOp s (Op.register a id hash) = Except.error Err.DuplicateIdentity ∧
      step s (Op.register a id hash) = s) ∧
    ((s.students a).studentId ≠ 0 → id ≠ 0 → s.studentIdToWallet id = 0 →
      applyOp s (Op.register a id hash) = Except.error Err.DuplicateHandle ∧
      step s (Op.register a id hash) = s) := by
  obtain ⟨-, hz⟩ := reachable_inv h
  constructor
  · intro hid
    have h0 : id ≠ 0 := by
      intro h0
      rw [h0] at hid
      exact hid hz
    have happ : applyOp s (Op.register a id hash) = Except.error Err.DuplicateIdentity := by
      unfold applyOp registerStudent
      simp [h0, hid]
    exact ⟨happ, step_of_error happ⟩
  · intro hh h0 hid
    have happ : applyOp s (Op.register a id hash) = Except.error Err.DuplicateHandle := by
      unfold applyOp registerStudent
      simp [h0, hid, hh]
    exact ⟨happ, step_of_error happ⟩

/-- C7 witness for the amended statement: in `stReg` (wallet 2 holds
id 42), a different wallet re-using id 42 gets `DuplicateIdentity`,
and wallet 2 supplying the fresh id 43 gets `DuplicateHandle`. -/
theorem register_duplicate_order_witness :
    applyOp stReg (Op.register 3 42 "g") = Except.error Err.DuplicateIdentity ∧
    applyOp stReg (Op.register 2 43 "g") = Except.error Err.DuplicateHandle :=
  ⟨((register_duplicate_order stReg reachable_stReg 3 42 "g").1 (by decide)).1,
   ((register_duplicate_order stReg reachable_stReg 2 43 "g").2
      (by decide) (by decide) (by decide)).1⟩

/-- C8: history/projection mismatch.  In the trace `opsHist` the oracle
verifies the still-unregistered wallet 2 with student id 0 (accepted)
and records an eligible-true entry; wallet 2 then registers, which
overwrites its student record with `isEligible = false` while the
verification history keeps the earlier record.  Afterwards wallet 2 is
a registered account whose `is_eligible` (false) differs from the
`is_eligible` of its most recent VerificationRecord (true), violating
the claimed invariant. -/
theorem eligibility_history_mismatch :
    (stHist.students 2).studentId = 5 ∧
    (stHist.students 2).isEligible = false ∧
    ((stHist.verificationHistory 2).getLast?.map (fun r => r.isEligible)) = some true :=
  ⟨rfl, rfl, rfl⟩

/-- C9: `verifyEligibility` called by the oracle on a completely
unregistered wallet (address 2 in the freshly deployed state) with
`external_id = 0` SUCCEEDS — the unregistered student record's zero id
matches the supplied 0 — marking a phantom account eligible and
appending a verification record, where the claim requires failure with
`AccountNotFound` for every unregistered reference, including
`external_id = 0`. -/
theorem verify_unregistered_accepted :
    ((initState 1).students 2).studentId = 0 ∧
    (applyOp (initState 1) (Op.verify 1 2 0 true "r" 5)).isOk = true ∧
    ((step (initState 1) (Op.verify 1 2 0 true "r" 5)).students 2).isEligible = true ∧
    ((step (initState 1) (Op.verify 1 2 0 true "r" 5)).verificationHistory 2).length = 1 :=
  ⟨rfl, rfl, rfl, rfl⟩

/-- C10 counterexample: in `stBase` pool 0 holds
`remaining_amount = 10` and the contract balance is 10; the owner
withdraws 4.  The call succeeds and reduces the contract balance to 6,
but pool 0's `remaining_amount` stays 10 — it is NOT reduced by the
withdrawn amount as the claim states, because `withdrawUnclaimedFunds`
never touches pool records. -/
theorem withdraw_pool_record_cex :
    (stBase.scholarships 0).remainingAmount = 10 ∧
    stBase.balance = 10 ∧
    (applyOp stBase (Op.withdraw 1 4)).isOk = true ∧
    ((step stBase (Op.withdraw 1 4)).scholarships 0).remainingAmount = 10 ∧
    (step stBase (Op.withdraw 1 4)).balance = 6 :=
  ⟨rfl, rfl, rfl, rfl, rfl⟩

/-- C10 amended: a successful residual withdrawal by the owner reduces
the CONTRACT's balance by exactly the withdrawn amount and leaves every
pool record — hence each pool's capacity, `claims_processed`,
`total_amount`, `share_amount` AND `remaining_amount` — unchanged; a
withdrawal of more than the contract balance fails with
`InsufficientBalance` and changes nothing. -/
theorem withdraw_shape (s : ContractState) (sender amount : Nat)
    (hown : sender = s.owner) :
    (amount ≤ s.balance →
      (step s (Op.withdraw sender amount)).balance = s.balance - amount ∧
      (step s (Op.withdraw sender amount)).scholarships = s.scholarships ∧
      (step s (Op.withdraw sender amount)).scholarshipCounter = s.scholarshipCounter) ∧
    (s.balance < amount →
      applyOp s (Op.withdraw sender amount) = Except.error Err.InsufficientBalance ∧
      step s (Op.withdraw sender amount) = s) := by
  constructor
  · intro hle
    have hnl : ¬ (s.balance < amount) := Nat.not_lt.mpr hle
    unfold step applyOp withdrawUnclaimedFunds
    simp [hown, hnl]
  · intro hlt
    have happ : applyOp s (Op.withdraw sender amount) = Except.error Err.InsufficientBalance := by
      unfold applyOp withdrawUnclaimedFunds
      simp [hown, hlt]
    exact ⟨happ, step_of_error happ⟩

/-- C10 witness for the amended statement: the owner withdraws 4 of the
10 units held in `stBase`; the balance drops to 6 and the pool table is
untouched. -/
theorem withdraw_shape_witness :
    (step stBase (Op.withdraw 1 4)).balance = stBase.balance - 4 ∧
    (step stBase (Op.withdraw 1 4)).scholarships = stBase.scholarships ∧
    (step stBase (Op.withdraw 1 4)).scholarshipCounter = stBase.scholarshipCounter :=
  (withdraw_shape stBase 1 4 rfl).1 (by decide)

end ScholarshipHub
